import Mathlib

/-!
Shallow embedding of the voice-capture/transcription pipeline of the
`mindmate-voice` repository:

* `src/services/transcriptionService.ts` — the three transcription backends
  (`OpenAIWhisperService`, `GoogleSpeechToTextService`,
  `MockTranscriptionService`);
* `src/services/voiceRecognitionService.ts` — the `VoiceRecognitionService`
  class (backend selection, `startRecording`, `stopRecording`, `isUsingAPI`);
* `src/presentation/hooks/useVoiceRecognition.ts` — the view-model hook
  (`handleStartRecording`, `handleStopRecording`, `clearText`, `clearError`)
  publishing `VoiceRecognitionState` snapshots via `setState`.

External effects (the platform permission prompt, the native recording
device, HTTP responses from the remote endpoints) are passed in as explicit
environment values; every other computation is translated line by line from
the TypeScript source.  JavaScript `undefined`/`null` is modelled with
`Option`, thrown `Error` values by `Except String` carrying the message, and
JS string falsiness (`""` and `undefined` are falsy) by `jsTruthy`.
-/

/-- JS truthiness of a `string | undefined` value: `undefined` and `""` are
falsy, every other string is truthy. -/
def jsTruthy : Option String → Bool
  | none => false
  | some s => decide (s ≠ "")

/-- JS `a || b` on `string | undefined` values. -/
def jsOrOpt (a d : Option String) : Option String :=
  if jsTruthy a then a else d

/-- JS `a || b` where the fallback is a definite string (used for
`errorData.error?.message || response.statusText` and
`result.language || 'pt'`). -/
def jsOrStr : Option String → String → String
  | some s, d => if s = "" then d else s
  | none, d => d

/-- `TranscriptionResult` of `transcriptionService.ts`.  The TS interface
declares `text: string`, but at runtime the remote backends copy the parsed
JSON field verbatim, so `text` can be `undefined`; we model the runtime
value with `Option String`. -/
structure TranscriptionResult where
  text : Option String
  confidence : Option ℚ
  language : Option String
deriving Repr, DecidableEq

/-- Parsed JSON body of a Whisper-endpoint HTTP response: the fields the
source reads (`text`, `confidence`, `language`, `error?.message`). -/
structure WhisperBody where
  text : Option String
  confidence : Option ℚ
  language : Option String
  errorMessage : Option String
deriving Repr, DecidableEq

/-- A Whisper-endpoint HTTP response as observed by `fetch`: `ok`,
`status`, `statusText` and the JSON body (`none` models a body on which
`response.json()` rejects). -/
structure WhisperResponse where
  ok : Bool
  status : Nat
  statusText : String
  body : Option WhisperBody
deriving Repr, DecidableEq

/-- `errorData` fallback `{}` produced by `response.json().catch(() => ({}))`. -/
def emptyWhisperBody : WhisperBody :=
  { text := none, confidence := none, language := none, errorMessage := none }

/-- Message of the exception thrown by `response.json()` when the success
body is not parseable JSON (platform-provided text). -/
def jsonParseErrorMsg : String := "JSON Parse error: Unexpected end of input"

/-- `OpenAIWhisperService.transcribe` (transcriptionService.ts).  The service
holds `apiKey : string | undefined`; the HTTP exchange is summarised by the
`WhisperResponse` the endpoint returns. -/
def OpenAIWhisperService.transcribe (apiKey : Option String)
    (resp : WhisperResponse) : Except String TranscriptionResult :=
  if jsTruthy apiKey = false then
    .error "OpenAI API Key não configurada"
  else if resp.ok = false then
    let errorData := (resp.body).getD emptyWhisperBody
    .error ("Erro na API OpenAI: " ++ toString resp.status ++ " - "
      ++ jsOrStr errorData.errorMessage resp.statusText)
  else
    match resp.body with
    | none => .error jsonParseErrorMsg
    | some b => .ok { text := b.text, confidence := b.confidence,
                      language := some (jsOrStr b.language "pt") }

/-- One element of `alternatives` in a Google Speech response. -/
structure GoogleAlternative where
  transcript : Option String
  confidence : Option ℚ
deriving Repr, DecidableEq

/-- One element of `results` in a Google Speech response; `alternatives`
may be absent (`none`). -/
structure GoogleSpeechResult where
  alternatives : Option (List GoogleAlternative)
deriving Repr, DecidableEq

/-- A Google-endpoint HTTP response: `ok`, `status`, and the JSON body.
The outer `Option` models a `response.json()` rejection; the inner
`Option` models presence of the `results` field. -/
structure GoogleResponse where
  ok : Bool
  status : Nat
  body : Option (Option (List GoogleSpeechResult))
deriving Repr, DecidableEq

/-- Message of the TypeError raised by `result.results[0].alternatives[0]`
when `alternatives` is absent or empty (JS property access on `undefined`). -/
def typeErrorUndefinedMsg : String :=
  "TypeError: Cannot read property of undefined"

/-- `GoogleSpeechToTextService.transcribe` (transcriptionService.ts).  The
request construction (base64 body, config) has no observable effect on the
returned value, so only the response is consumed. -/
def GoogleSpeechToTextService.transcribe (resp : GoogleResponse) :
    Except String TranscriptionResult :=
  if resp.ok = false then
    .error ("Erro na API: " ++ toString resp.status)
  else
    match resp.body with
    | none => .error jsonParseErrorMsg
    | some results? =>
      match results? with
      | some (r :: _) =>
        match r.alternatives with
        | some (a :: _) =>
          .ok { text := a.transcript, confidence := a.confidence,
                language := some "pt-BR" }
        | some [] => .error typeErrorUndefinedMsg
        | none => .error typeErrorUndefinedMsg
      | some [] => .ok { text := some "", confidence := some 0, language := some "pt-BR" }
      | none => .ok { text := some "", confidence := some 0, language := some "pt-BR" }

/-- The fixed phrase set of `MockTranscriptionService`. -/
def mockTexts : List String :=
  [ "Olá, como você está hoje?",
    "Este é um teste de reconhecimento de voz",
    "A inteligência artificial está revolucionando o mundo",
    "Obrigado por usar o MindMate Voice" ]

/-- `MockTranscriptionService.transcribe`: after the simulated delay it
returns one pseudo-randomly chosen phrase; the draw
`Math.floor(Math.random() * mockTexts.length)` is supplied as `draw`
(already reduced modulo the list length, as the JS expression guarantees). -/
def MockTranscriptionService.transcribe (draw : Nat) : TranscriptionResult :=
  { text := some (mockTexts.getD (draw % mockTexts.length) ""),
    confidence := some (19 / 20 : ℚ),
    language := some "pt-BR" }

/-- The concrete `TranscriptionService` instance held by
`VoiceRecognitionService`, as a tagged variant (the source distinguishes
them by class / `instanceof`). -/
inductive TranscriptionServiceInst
  | whisper (apiKey : Option String) (baseUrl : String)
  | google (apiKey : String) (baseUrl : String)
  | mock
deriving Repr, DecidableEq

/-- Default `baseUrl` of `OpenAIWhisperService`. -/
def whisperDefaultBaseUrl : String := "https://api.openai.com/v1"

/-- `new OpenAIWhisperService(apiKey?, baseUrl?)`:
`this.apiKey = apiKey || process.env.OPENAI_API_KEY`. -/
def mkOpenAIWhisperService (apiKeyArg envKey : Option String) :
    TranscriptionServiceInst :=
  .whisper (jsOrOpt apiKeyArg envKey) whisperDefaultBaseUrl

/-- The `VoiceRecognitionService` constructor: if
`process.env.OPENAI_API_KEY` is truthy and no service was injected, a fresh
`OpenAIWhisperService` is used; otherwise the injected service, falling
back to `MockTranscriptionService`. -/
def VoiceRecognitionService.selectService (envKey : Option String)
    (injected : Option TranscriptionServiceInst) : TranscriptionServiceInst :=
  if jsTruthy envKey && injected.isNone then
    mkOpenAIWhisperService none envKey
  else
    injected.getD .mock

/-- `VoiceRecognitionService.isUsingAPI()`:
`this.transcriptionService instanceof OpenAIWhisperService`. -/
def VoiceRecognitionService.isUsingAPIOf : TranscriptionServiceInst → Bool
  | .whisper _ _ => true
  | _ => false

/-- The native `Audio.Recording` handle: an identity and the value
`getURI()` will report (`none` models a `null` URI). -/
structure RecordingHandle where
  id : Nat
  uri : Option String
deriving Repr, DecidableEq

/-- Private state of the `VoiceRecognitionService` instance:
`recording: Audio.Recording | null` and `isRecording: boolean`. -/
structure SvcState where
  recording : Option RecordingHandle
  isRecording : Bool
deriving Repr, DecidableEq

/-- `VoiceRecognitionState` published by `useVoiceRecognition`. -/
structure VoiceRecognitionState where
  isRecording : Bool
  transcribedText : String
  isProcessing : Bool
  error : Option String
  isUsingAPI : Bool
deriving Repr, DecidableEq

/-- Whole-system state: the hook's published snapshot plus the service's
private fields. -/
structure Sys where
  vm : VoiceRecognitionState
  svc : SvcState
deriving Repr, DecidableEq

deriving instance DecidableEq for Except

/-- Environment of one `startRecording` call: the permission-prompt outcome
and the result of `Audio.Recording.createAsync` (`.error m` models the
device throwing with message `m`). -/
structure StartEnv where
  permissionGranted : Bool
  captureResult : Except String RecordingHandle
deriving Repr, DecidableEq

/-- Environment of one `stopRecording` + transcription round: whether
`stopAndUnloadAsync` throws, and the outcome the selected backend produces
for `transcribeAudio` (text or error message). -/
structure StopEnv where
  stopDeviceError : Option String
  transcription : Except String String
deriving Repr, DecidableEq

/-- Message thrown by `startRecording` when permission is not granted. -/
def permissionDeniedMsg : String := "Permissão de áudio não concedida"

/-- Message thrown by `stopRecording` when no recording is in progress. -/
def noRecordingMsg : String := "Nenhuma gravação em andamento"

/-- Message thrown by `stopRecording` when `getURI()` is falsy. -/
def noUriMsg : String := "URI da gravação não encontrada"

/-- `VoiceRecognitionService.startRecording` (voiceRecognitionService.ts):
request permission, configure the audio mode, create the recording.  Note
the source never consults `this.isRecording` here. -/
def VoiceRecognitionService.startRecording (env : StartEnv) (s : SvcState) :
    Except String Unit × SvcState :=
  if env.permissionGranted = false then
    (.error permissionDeniedMsg, s)
  else
    match env.captureResult with
    | .error m => (.error m, s)
    | .ok h => (.ok (), { recording := some h, isRecording := true })

/-- `VoiceRecognitionService.stopRecording`: guarded by the service-private
`recording`/`isRecording` fields; clears them before the URI check, so a
missing URI still leaves the service idle. -/
def VoiceRecognitionService.stopRecording (env : StopEnv) (s : SvcState) :
    Except String String × SvcState :=
  match s.recording, s.isRecording with
  | some h, true =>
    (match env.stopDeviceError with
     | some m => (.error m, s)
     | none =>
       let cleared : SvcState := { recording := none, isRecording := false }
       match h.uri with
       | some u => if u = "" then (.error noUriMsg, cleared) else (.ok u, cleared)
       | none => (.error noUriMsg, cleared))
  | _, _ => (.error noRecordingMsg, s)

/-- `handleStartRecording` of `useVoiceRecognition`: optimistically publish
`isRecording = true` with cleared text/error, then await the service; on a
thrown error publish `isRecording = false` plus the message.  Returns the
new system state and the list of snapshots published, in order. -/
def handleStartRecording (env : StartEnv) (s : Sys) :
    Sys × List VoiceRecognitionState :=
  let vm1 := { s.vm with isRecording := true, error := none, transcribedText := "" }
  match VoiceRecognitionService.startRecording env s.svc with
  | (.ok _, svc1) => ({ vm := vm1, svc := svc1 }, [vm1])
  | (.error m, svc1) =>
    let vm2 := { vm1 with isRecording := false, error := some m }
    ({ vm := vm2, svc := svc1 }, [vm1, vm2])

/-- `handleStopRecording` of `useVoiceRecognition`: publish
`isProcessing = true`, await `stopRecording`, publish `isRecording = false`,
await the transcription, publish the text; any thrown error lands in the
single catch that publishes `isRecording = false, isProcessing = false`
plus the message. -/
def handleStopRecording (env : StopEnv) (s : Sys) :
    Sys × List VoiceRecognitionState :=
  let vm1 := { s.vm with isProcessing := true }
  match VoiceRecognitionService.stopRecording env s.svc with
  | (.error m, svc1) =>
    let vm2 := { vm1 with isRecording := false, isProcessing := false, error := some m }
    ({ vm := vm2, svc := svc1 }, [vm1, vm2])
  | (.ok _, svc1) =>
    let vm2 := { vm1 with isRecording := false }
    match env.transcription with
    | .ok t =>
      let vm3 := { vm2 with transcribedText := t, isProcessing := false }
      ({ vm := vm3, svc := svc1 }, [vm1, vm2, vm3])
    | .error m =>
      let vm3 := { vm2 with isRecording := false, isProcessing := false, error := some m }
      ({ vm := vm3, svc := svc1 }, [vm1, vm2, vm3])

/-- `clearText` of `useVoiceRecognition`. -/
def clearText (s : Sys) : Sys × List VoiceRecognitionState :=
  let vm1 := { s.vm with transcribedText := "", error := none }
  ({ s with vm := vm1 }, [vm1])

/-- `clearError` of `useVoiceRecognition`. -/
def clearError (s : Sys) : Sys × List VoiceRecognitionState :=
  let vm1 := { s.vm with error := none }
  ({ s with vm := vm1 }, [vm1])

/-- One view-model command together with the outcomes of its external
interactions. -/
inductive Cmd
  | start (env : StartEnv)
  | stop (env : StopEnv)
  | clearTextCmd
  | clearErrorCmd
deriving Repr, DecidableEq

/-- Execute one command. -/
def step : Cmd → Sys → Sys × List VoiceRecognitionState
  | .start env, s => handleStartRecording env s
  | .stop env, s => handleStopRecording env s
  | .clearTextCmd, s => clearText s
  | .clearErrorCmd, s => clearError s

/-- Execute a command sequence, concatenating all published snapshots. -/
def runCmds : List Cmd → Sys → Sys × List VoiceRecognitionState
  | [], s => (s, [])
  | c :: cs, s =>
    let p := step c s
    let q := runCmds cs p.1
    (q.1, p.2 ++ q.2)

/-- The initial state of `useVoiceRecognition` for a service built over
`svcInst`. -/
def initState (svcInst : TranscriptionServiceInst) : Sys :=
  { vm := { isRecording := false, transcribedText := "", isProcessing := false,
            error := none,
            isUsingAPI := VoiceRecognitionService.isUsingAPIOf svcInst },
    svc := { recording := none, isRecording := false } }

/-- Every published snapshot along a run: the initial state followed by
each `setState` result. -/
def observations (svcInst : TranscriptionServiceInst) (cs : List Cmd) :
    List VoiceRecognitionState :=
  (initState svcInst).vm :: (runCmds cs (initState svcInst)).2

/-- The system states at rest after each command of a sequence. -/
def statesAfter : List Cmd → Sys → List Sys
  | [], _ => []
  | c :: cs, s =>
    let s1 := (step c s).1
    s1 :: statesAfter cs s1

/-- A recording handle used in concrete runs. -/
def demoHandle : RecordingHandle := { id := 0, uri := some "file:///tmp/audio.m4a" }

/-- A second, distinct recording handle. -/
def demoHandle2 : RecordingHandle := { id := 1, uri := some "file:///tmp/audio2.m4a" }

/-- A start environment where permission is granted and capture succeeds. -/
def startOkEnv : StartEnv := { permissionGranted := true, captureResult := .ok demoHandle }

/-- A second successful start environment yielding the second handle. -/
def startOkEnv2 : StartEnv := { permissionGranted := true, captureResult := .ok demoHandle2 }

/-- A start environment where the permission prompt is denied. -/
def startDeniedEnv : StartEnv :=
  { permissionGranted := false, captureResult := .error "unused" }

/-- A stop environment where the device stops cleanly and transcription
returns "hello". -/
def stopOkEnv : StopEnv := { stopDeviceError := none, transcription := .ok "hello" }

/-- A stop environment where `stopAndUnloadAsync` throws. -/
def stopDeviceFailEnv : StopEnv :=
  { stopDeviceError := some "Erro interno do dispositivo", transcription := .ok "x" }

/-- A Whisper success body carrying a transcription. -/
def wbHello : WhisperBody :=
  { text := some "hello", confidence := none, language := none, errorMessage := none }

/-- A successful Whisper response with body `wbHello`. -/
def wrespHello : WhisperResponse :=
  { ok := true, status := 200, statusText := "OK", body := some wbHello }

/-- A successful Whisper response whose body has no `text` field. -/
def wrespNoText : WhisperResponse :=
  { ok := true, status := 200, statusText := "OK",
    body := some { text := none, confidence := none, language := none, errorMessage := none } }

/-- The 401 response of the spec's example:
body `{error: {message: "Invalid API key"}}`. -/
def wresp401 : WhisperResponse :=
  { ok := false, status := 401, statusText := "Unauthorized",
    body := some { text := none, confidence := none, language := none,
                   errorMessage := some "Invalid API key" } }

/-- A successful Google response with an empty `results` array. -/
def gRespEmpty : GoogleResponse :=
  { ok := true, status := 200, body := some (some []) }

/-- A Google alternative carrying a transcript. -/
def gAltOi : GoogleAlternative := { transcript := some "oi", confidence := some (9 / 10 : ℚ) }

/-- A Google result wrapping `gAltOi`. -/
def gResOi : GoogleSpeechResult := { alternatives := some [gAltOi] }

/-- A successful Google response whose first candidate is `gAltOi`. -/
def gRespOi : GoogleResponse :=
  { ok := true, status := 200, body := some (some [gResOi]) }

/-- Substring containment of `t` in `s`. -/
def strContains (s t : String) : Prop := ∃ l r, s = l ++ t ++ r

/-- Every single command leaves `isProcessing = false` at rest: each path
through `handleStopRecording` ends with `isProcessing := false`, and the
other commands never set it. -/
theorem step_isProcessing_false (c : Cmd) (s : Sys) (h : s.vm.isProcessing = false) :
    (step c s).1.vm.isProcessing = false := by
  cases c <;>
    simp only [step, handleStartRecording, handleStopRecording, clearText, clearError] <;>
    (repeat' split) <;> simp [h]

/-- Along any run started in a quiescent state, every at-rest state has
`isProcessing = false`. -/
theorem statesAfter_isProcessing_false (cs : List Cmd) (s0 : Sys)
    (h0 : s0.vm.isProcessing = false) :
    ∀ s ∈ statesAfter cs s0, s.vm.isProcessing = false := by
  induction cs generalizing s0 with
  | nil => intro s hs; simp [statesAfter] at hs
  | cons c cs ih =>
    intro s hs
    simp only [statesAfter, List.mem_cons] at hs
    rcases hs with rfl | hs
    · exact step_isProcessing_false c s0 h0
    · exact ih ((step c s0).1) (step_isProcessing_false c s0 h0) s hs

/-- C1 fails as stated: in the run `start(); stop()` (permission granted,
capture and transcription succeeding), the snapshot published by the first
`setState` of `handleStopRecording` has `isRecording = true` and
`isProcessing = true` simultaneously — `handleStopRecording` raises
`isProcessing` before it clears `isRecording`. -/
theorem claim_C1_counterexample :
    ∃ v ∈ observations .mock [Cmd.start startOkEnv, Cmd.stop stopOkEnv],
      v.isRecording = true ∧ v.isProcessing = true := by decide

/-- C1 (amended): for every sequence of commands, every state at rest
(after each command completes, rather than at every published snapshot) has
`isRecording` and `isProcessing` not simultaneously true; indeed
`isProcessing` is false whenever no command is in flight.  The original
claim fails only at the transient snapshot inside `stop()`. -/
theorem claim_C1_quiescent_exclusion (svcInst : TranscriptionServiceInst)
    (cs : List Cmd) (s : Sys) (h : s ∈ statesAfter cs (initState svcInst)) :
    ¬ (s.vm.isRecording = true ∧ s.vm.isProcessing = true) := by
  rintro ⟨-, hp⟩
  have hfalse := statesAfter_isProcessing_false cs (initState svcInst) rfl s h
  rw [hfalse] at hp
  exact Bool.false_ne_true hp

/-- C1 witness: the amended theorem applied to the state after one
successful `start()`. -/
theorem claim_C1_witness :
    ¬ (((step (Cmd.start startOkEnv) (initState .mock)).1).vm.isRecording = true
       ∧ ((step (Cmd.start startOkEnv) (initState .mock)).1).vm.isProcessing = true) :=
  claim_C1_quiescent_exclusion .mock [Cmd.start startOkEnv]
    ((step (Cmd.start startOkEnv) (initState .mock)).1) (by decide)

/-- C2 fails as stated: after a successful `start()` the published state has
`isRecording = true`, yet a second `start()` is not rejected — it completes
with `error = none` and the service now holds a fresh capture handle
(`demoHandle2`), the first handle having been silently replaced.  Neither
`handleStartRecording` nor `VoiceRecognitionService.startRecording` checks
the recording/processing flags. -/
theorem claim_C2_counterexample :
    ((runCmds [Cmd.start startOkEnv] (initState .mock)).1.vm.isRecording = true)
  ∧ ((runCmds [Cmd.start startOkEnv, Cmd.start startOkEnv2] (initState .mock)).1.vm.error = none)
  ∧ ((runCmds [Cmd.start startOkEnv, Cmd.start startOkEnv2] (initState .mock)).1.svc.recording
      = some demoHandle2) := by decide

/-- C2 (amended): calling `start()` while `isRecording` or `isProcessing`
is true is NOT rejected with an invalid-state error.  With permission
granted and the device available it succeeds: it clears `transcribedText`
and `error`, publishes `isRecording = true`, and the service opens a new
capture handle that replaces (and thus interrupts) the in-flight session's
handle. -/
theorem claim_C2_not_rejected (s : Sys) (env : StartEnv) (h : RecordingHandle)
    (_hbusy : s.vm.isRecording = true ∨ s.vm.isProcessing = true)
    (hperm : env.permissionGranted = true)
    (hcap : env.captureResult = .ok h) :
    (handleStartRecording env s).1.vm.error = none
  ∧ (handleStartRecording env s).1.vm.isRecording = true
  ∧ (handleStartRecording env s).1.vm.transcribedText = ""
  ∧ (handleStartRecording env s).1.svc.recording = some h
  ∧ (handleStartRecording env s).1.svc.isRecording = true := by
  simp [handleStartRecording, VoiceRecognitionService.startRecording, hperm, hcap]

/-- C2 witness: the amended theorem applied to the state reached by one
successful `start()`, with a second successful start environment. -/
theorem claim_C2_witness :
    ((runCmds [Cmd.start startOkEnv] (initState .mock)).1.vm.isRecording = true
      ∨ (runCmds [Cmd.start startOkEnv] (initState .mock)).1.vm.isProcessing = true)
  ∧ ((handleStartRecording startOkEnv2 (runCmds [Cmd.start startOkEnv] (initState .mock)).1).1.vm.error = none
     ∧ (handleStartRecording startOkEnv2 (runCmds [Cmd.start startOkEnv] (initState .mock)).1).1.vm.isRecording = true
     ∧ (handleStartRecording startOkEnv2 (runCmds [Cmd.start startOkEnv] (initState .mock)).1).1.vm.transcribedText = ""
     ∧ (handleStartRecording startOkEnv2 (runCmds [Cmd.start startOkEnv] (initState .mock)).1).1.svc.recording = some demoHandle2
     ∧ (handleStartRecording startOkEnv2 (runCmds [Cmd.start startOkEnv] (initState .mock)).1).1.svc.isRecording = true) :=
  ⟨Or.inl (by decide),
   claim_C2_not_rejected (runCmds [Cmd.start startOkEnv] (initState .mock)).1
     startOkEnv2 demoHandle2 (Or.inl (by decide)) (by decide) (by decide)⟩

/-- C3 fails as stated: the guard of `stopRecording` is the service-private
`recording`/`isRecording` pair, not the published flag.  After
`start()` succeeds and a `stop()` fails inside `stopAndUnloadAsync`, the
published `isRecording` is false while the service still holds a live
recording; a further `stop()` then raises no invalid-state error and
overwrites `transcribedText` with the new transcription. -/
theorem claim_C3_counterexample :
    ((runCmds [Cmd.start startOkEnv, Cmd.stop stopDeviceFailEnv] (initState .mock)).1.vm.isRecording
      = false)
  ∧ ((runCmds [Cmd.start startOkEnv, Cmd.stop stopDeviceFailEnv] (initState .mock)).1.vm.transcribedText
      = "")
  ∧ ((runCmds [Cmd.start startOkEnv, Cmd.stop stopDeviceFailEnv, Cmd.stop stopOkEnv]
        (initState .mock)).1.vm.transcribedText = "hello")
  ∧ ((runCmds [Cmd.start startOkEnv, Cmd.stop stopDeviceFailEnv, Cmd.stop stopOkEnv]
        (initState .mock)).1.vm.error ≠ some noRecordingMsg) := by decide

/-- C3 (amended): calling `stop()` when the SERVICE holds no active
recording (capture handle absent or the service-side flag false) yields the
invalid-state error message `Nenhuma gravação em andamento`; provided the
published snapshot was quiescent (`isRecording = false`,
`isProcessing = false`), the final published `isRecording`, `isProcessing`
and `transcribedText` are unchanged, as is the service state.  (A transient
snapshot with `isProcessing = true` is still published during the call, and
the guard consulted is the service's internal status, not the published
`isRecording` flag.) -/
theorem claim_C3_service_guard (s : Sys) (env : StopEnv)
    (hsvc : s.svc.recording = none ∨ s.svc.isRecording = false)
    (hrec : s.vm.isRecording = false) (hproc : s.vm.isProcessing = false) :
    (handleStopRecording env s).1.vm.error = some noRecordingMsg
  ∧ (handleStopRecording env s).1.vm.transcribedText = s.vm.transcribedText
  ∧ (handleStopRecording env s).1.vm.isRecording = s.vm.isRecording
  ∧ (handleStopRecording env s).1.vm.isProcessing = s.vm.isProcessing
  ∧ (handleStopRecording env s).1.svc = s.svc := by
  have hsr : VoiceRecognitionService.stopRecording env s.svc = (.error noRecordingMsg, s.svc) := by
    rcases hsvc with h1 | h1
    · simp [VoiceRecognitionService.stopRecording, h1]
    · cases hr2 : s.svc.recording <;>
        simp [VoiceRecognitionService.stopRecording, h1, hr2]
  simp [handleStopRecording, hsr, hrec, hproc]

/-- C3 witness: the amended theorem applied to the initial state. -/
theorem claim_C3_witness :
    ((initState .mock).svc.recording = none ∨ (initState .mock).svc.isRecording = false)
  ∧ ((handleStopRecording stopOkEnv (initState .mock)).1.vm.error = some noRecordingMsg
     ∧ (handleStopRecording stopOkEnv (initState .mock)).1.vm.transcribedText
        = (initState .mock).vm.transcribedText
     ∧ (handleStopRecording stopOkEnv (initState .mock)).1.vm.isRecording
        = (initState .mock).vm.isRecording
     ∧ (handleStopRecording stopOkEnv (initState .mock)).1.vm.isProcessing
        = (initState .mock).vm.isProcessing
     ∧ (handleStopRecording stopOkEnv (initState .mock)).1.svc = (initState .mock).svc) :=
  ⟨Or.inl (by decide),
   claim_C3_service_guard (initState .mock) stopOkEnv (Or.inl (by decide)) (by decide) (by decide)⟩

/-- C4 fails as stated: `clearText` also resets `error` to `null`.  After a
`start()` denied by the permission prompt the published error is
`Permissão de áudio não concedida`; a subsequent `clearText()` erases it. -/
theorem claim_C4_counterexample :
    ((runCmds [Cmd.start startDeniedEnv] (initState .mock)).1.vm.error
      = some permissionDeniedMsg)
  ∧ ((runCmds [Cmd.start startDeniedEnv, Cmd.clearTextCmd] (initState .mock)).1.vm.error
      = none) := by decide

/-- Whisper success with a parsed body returns the body's fields verbatim
(language falling back to `pt`). -/
theorem whisper_transcribe_ok (key : Option String) (resp : WhisperResponse)
    (b : WhisperBody) (hkey : jsTruthy key = true) (hok : resp.ok = true)
    (hbody : resp.body = some b) :
    OpenAIWhisperService.transcribe key resp
      = .ok { text := b.text, confidence := b.confidence,
              language := some (jsOrStr b.language "pt") } := by
  simp [OpenAIWhisperService.transcribe, hkey, hok, hbody]

/-- Whisper failure produces the formatted error message. -/
theorem whisper_transcribe_error (key : Option String) (resp : WhisperResponse)
    (hkey : jsTruthy key = true) (hok : resp.ok = false) :
    OpenAIWhisperService.transcribe key resp
      = .error ("Erro na API OpenAI: " ++ toString resp.status ++ " - "
          ++ jsOrStr ((resp.body).getD emptyWhisperBody).errorMessage resp.statusText) := by
  simp [OpenAIWhisperService.transcribe, hkey, hok]

/-- Google success with an absent or empty `results` list yields the empty
transcription. -/
theorem google_transcribe_empty (resp : GoogleResponse) (hok : resp.ok = true)
    (hbody : resp.body = some none ∨ resp.body = some (some [])) :
    GoogleSpeechToTextService.transcribe resp
      = .ok { text := some "", confidence := some 0, language := some "pt-BR" } := by
  rcases hbody with h | h <;> simp [GoogleSpeechToTextService.transcribe, hok, h]

/-- Google success with a first candidate carrying alternatives yields the
first alternative verbatim. -/
theorem google_transcribe_first (resp : GoogleResponse) (r : GoogleSpeechResult)
    (rs : List GoogleSpeechResult) (a : GoogleAlternative)
    (rest : List GoogleAlternative) (hok : resp.ok = true)
    (hbody : resp.body = some (some (r :: rs)))
    (halt : r.alternatives = some (a :: rest)) :
    GoogleSpeechToTextService.transcribe resp
      = .ok { text := a.transcript, confidence := a.confidence,
              language := some "pt-BR" } := by
  simp [GoogleSpeechToTextService.transcribe, hok, hbody, halt]

/-- C4 (amended): `clearText()` resets `transcribedText` to the empty
string AND resets `error` to `null`, leaving `isRecording`, `isProcessing`,
`isUsingAPI` and the service state unchanged; `clearError()` resets only
`error` to `null`, leaving every other field unchanged. -/
theorem claim_C4_clear_fields (s : Sys) :
    ((clearText s).1.vm.transcribedText = ""
     ∧ (clearText s).1.vm.error = none
     ∧ (clearText s).1.vm.isRecording = s.vm.isRecording
     ∧ (clearText s).1.vm.isProcessing = s.vm.isProcessing
     ∧ (clearText s).1.vm.isUsingAPI = s.vm.isUsingAPI
     ∧ (clearText s).1.svc = s.svc)
  ∧ ((clearError s).1.vm.error = none
     ∧ (clearError s).1.vm.transcribedText = s.vm.transcribedText
     ∧ (clearError s).1.vm.isRecording = s.vm.isRecording
     ∧ (clearError s).1.vm.isProcessing = s.vm.isProcessing
     ∧ (clearError s).1.vm.isUsingAPI = s.vm.isUsingAPI
     ∧ (clearError s).1.svc = s.svc) := by
  constructor <;> simp [clearText, clearError]

/-- C5: backend selection.  With a truthy credential in the environment and
no injected service, the constructor selects a fresh Whisper service
holding that credential; with no credential (absent or empty) and no
injection it selects the Mock service; an injected service is always used,
whatever the credential. -/
theorem claim_C5_backend_selection (k : String) (hk : k ≠ "")
    (envKey : Option String) (b : TranscriptionServiceInst) :
    VoiceRecognitionService.selectService (some k) none
      = .whisper (some k) whisperDefaultBaseUrl
  ∧ VoiceRecognitionService.selectService none none = .mock
  ∧ VoiceRecognitionService.selectService (some "") none = .mock
  ∧ VoiceRecognitionService.selectService envKey (some b) = b := by
  refine ⟨?_, ?_, ?_, ?_⟩
  · simp [VoiceRecognitionService.selectService, jsTruthy, hk,
      mkOpenAIWhisperService, jsOrOpt]
  · simp [VoiceRecognitionService.selectService, jsTruthy]
  · simp [VoiceRecognitionService.selectService, jsTruthy]
  · simp [VoiceRecognitionService.selectService]

/-- C5 witness: the selection policy at the key `sk-test` and an injected
Google service. -/
theorem claim_C5_witness :
    ("sk-test" ≠ "")
  ∧ (VoiceRecognitionService.selectService (some "sk-test") none
      = .whisper (some "sk-test") whisperDefaultBaseUrl
     ∧ VoiceRecognitionService.selectService none none = .mock
     ∧ VoiceRecognitionService.selectService (some "") none = .mock
     ∧ VoiceRecognitionService.selectService (some "sk-test")
         (some (.google "gk" "gu")) = .google "gk" "gu") :=
  ⟨by decide,
   claim_C5_backend_selection "sk-test" (by decide) (some "sk-test") (.google "gk" "gu")⟩

/-- C6 fails as stated: the Whisper backend copies the parsed `text` field
verbatim, so a success (HTTP 200) response whose JSON body lacks `text`
yields a successful `TranscriptionResult` with undefined text — not an
error. -/
theorem claim_C6_counterexample :
    OpenAIWhisperService.transcribe (some "sk-test") wrespNoText
      = .ok { text := none, confidence := none, language := some "pt" } := by decide

/-- C6 (amended): the Mock backend always returns defined text; the remote
backends return defined text whenever the success body carries the
transcript field — in particular Whisper with a body defining `text`, and
Google both for an absent/empty candidate list (empty text) and for a first
alternative with a transcript.  A success body lacking the transcript field
yields a result with undefined text rather than an error. -/
theorem claim_C6_defined_text (draw : Nat) (key : Option String)
    (wresp : WhisperResponse) (wb : WhisperBody) (wt : String)
    (gresp1 gresp2 : GoogleResponse) (r : GoogleSpeechResult)
    (rs : List GoogleSpeechResult) (a : GoogleAlternative)
    (rest : List GoogleAlternative) (gt : String)
    (hkey : jsTruthy key = true)
    (hwok : wresp.ok = true) (hwbody : wresp.body = some wb)
    (hwtext : wb.text = some wt)
    (hg1ok : gresp1.ok = true)
    (hg1body : gresp1.body = some none ∨ gresp1.body = some (some []))
    (hg2ok : gresp2.ok = true) (hg2body : gresp2.body = some (some (r :: rs)))
    (halt : r.alternatives = some (a :: rest)) (htr : a.transcript = some gt) :
    ((MockTranscriptionService.transcribe draw).text).isSome = true
  ∧ (∃ res, OpenAIWhisperService.transcribe key wresp = .ok res ∧ res.text = some wt)
  ∧ (∃ res, GoogleSpeechToTextService.transcribe gresp1 = .ok res ∧ res.text = some "")
  ∧ (∃ res, GoogleSpeechToTextService.transcribe gresp2 = .ok res ∧ res.text = some gt) := by
  refine ⟨rfl,
    ⟨_, whisper_transcribe_ok key wresp wb hkey hwok hwbody, ?_⟩,
    ⟨_, google_transcribe_empty gresp1 hg1ok hg1body, rfl⟩,
    ⟨_, google_transcribe_first gresp2 r rs a rest hg2ok hg2body halt, ?_⟩⟩
  · simpa using hwtext
  · simpa using htr

/-- C6 witness: the amended theorem at concrete responses. -/
theorem claim_C6_witness :
    ((MockTranscriptionService.transcribe 0).text).isSome = true
  ∧ (∃ res, OpenAIWhisperService.transcribe (some "sk-test") wrespHello = .ok res
       ∧ res.text = some "hello")
  ∧ (∃ res, GoogleSpeechToTextService.transcribe gRespEmpty = .ok res ∧ res.text = some "")
  ∧ (∃ res, GoogleSpeechToTextService.transcribe gRespOi = .ok res ∧ res.text = some "oi") :=
  claim_C6_defined_text 0 (some "sk-test") wrespHello wbHello "hello"
    gRespEmpty gRespOi gResOi [] gAltOi [] "oi"
    (by decide) rfl rfl rfl rfl (Or.inr rfl) rfl rfl rfl rfl

/-- C7: when the Whisper endpoint responds with a non-success status, the
thrown error message contains the upstream status code and the upstream
error message when the body carries one, falling back to the status text
when the body has no message (or could not be parsed). -/
theorem claim_C7_error_message (key : Option String) (resp : WhisperResponse)
    (hkey : jsTruthy key = true) (hok : resp.ok = false) :
    (∀ b m, resp.body = some b → b.errorMessage = some m → m ≠ "" →
       ∃ e, OpenAIWhisperService.transcribe key resp = .error e
         ∧ strContains e (toString resp.status) ∧ strContains e m)
  ∧ (∀ b, resp.body = some b → b.errorMessage = none →
       ∃ e, OpenAIWhisperService.transcribe key resp = .error e
         ∧ strContains e (toString resp.status) ∧ strContains e resp.statusText)
  ∧ (resp.body = none →
       ∃ e, OpenAIWhisperService.transcribe key resp = .error e
         ∧ strContains e (toString resp.status) ∧ strContains e resp.statusText) := by
  have herr := whisper_transcribe_error key resp hkey hok
  refine ⟨?_, ?_, ?_⟩
  · intro b m hb hm hne
    refine ⟨_, herr, ?_, ?_⟩
    · exact ⟨"Erro na API OpenAI: ",
        " - " ++ jsOrStr ((resp.body).getD emptyWhisperBody).errorMessage resp.statusText,
        by rw [String.append_assoc]⟩
    · refine ⟨"Erro na API OpenAI: " ++ toString resp.status ++ " - ", "", ?_⟩
      rw [String.append_empty]
      simp [hb, jsOrStr, emptyWhisperBody, hm, hne]
  · intro b hb hm
    refine ⟨_, herr, ?_, ?_⟩
    · exact ⟨"Erro na API OpenAI: ",
        " - " ++ jsOrStr ((resp.body).getD emptyWhisperBody).errorMessage resp.statusText,
        by rw [String.append_assoc]⟩
    · refine ⟨"Erro na API OpenAI: " ++ toString resp.status ++ " - ", "", ?_⟩
      rw [String.append_empty]
      simp [hb, jsOrStr, hm]
  · intro hb
    refine ⟨_, herr, ?_, ?_⟩
    · exact ⟨"Erro na API OpenAI: ",
        " - " ++ jsOrStr ((resp.body).getD emptyWhisperBody).errorMessage resp.statusText,
        by rw [String.append_assoc]⟩
    · refine ⟨"Erro na API OpenAI: " ++ toString resp.status ++ " - ", "", ?_⟩
      rw [String.append_empty]
      simp [hb, jsOrStr, emptyWhisperBody]

/-- C7 witness: the 401 `Invalid API key` example of the spec. -/
theorem claim_C7_witness :
    ∃ e, OpenAIWhisperService.transcribe (some "sk-test") wresp401 = .error e
      ∧ strContains e (toString wresp401.status) ∧ strContains e "Invalid API key" :=
  (claim_C7_error_message (some "sk-test") wresp401 (by decide) rfl).1
    { text := none, confidence := none, language := none,
      errorMessage := some "Invalid API key" }
    "Invalid API key" rfl rfl (by decide)

/-- C8: a successful Google response whose `results` list is absent or
empty is a successful transcription with empty text and confidence 0, not
an error. -/
theorem claim_C8_empty_candidates (resp : GoogleResponse) (hok : resp.ok = true)
    (hbody : resp.body = some none ∨ resp.body = some (some [])) :
    GoogleSpeechToTextService.transcribe resp
      = .ok { text := some "", confidence := some 0, language := some "pt-BR" } :=
  google_transcribe_empty resp hok hbody

/-- C8 witness: the empty-`results` response. -/
theorem claim_C8_witness :
    GoogleSpeechToTextService.transcribe gRespEmpty
      = .ok { text := some "", confidence := some 0, language := some "pt-BR" } :=
  claim_C8_empty_candidates gRespEmpty rfl (Or.inr rfl)

/-- C9: `isUsingAPI` is true exactly when the configured service is a
Whisper instance; injecting the Google remote service therefore publishes
`isUsingAPI = false` even though Google is a remote backend. -/
theorem claim_C9_isUsingAPI_iff :
    (∀ svc : TranscriptionServiceInst,
       VoiceRecognitionService.isUsingAPIOf svc = true ↔ ∃ k u, svc = .whisper k u)
  ∧ (∀ (envKey : Option String) (gk gu : String),
       VoiceRecognitionService.isUsingAPIOf
         (VoiceRecognitionService.selectService envKey (some (.google gk gu))) = false) := by
  constructor
  · intro svc
    cases svc with
    | whisper k u =>
      simp only [VoiceRecognitionService.isUsingAPIOf, true_iff]
      exact ⟨k, u, rfl⟩
    | google k u => simp [VoiceRecognitionService.isUsingAPIOf]
    | mock => simp [VoiceRecognitionService.isUsingAPIOf]
  · intro envKey gk gu
    simp [VoiceRecognitionService.selectService, VoiceRecognitionService.isUsingAPIOf]

/-- Whatever the outcome of its external interactions, `handleStartRecording`
publishes the same first snapshot: the previous state with
`isRecording := true`, cleared error and cleared text. -/
theorem handleStart_trace_head (env : StartEnv) (s : Sys) :
    (handleStartRecording env s).2.head?
      = some { s.vm with isRecording := true, error := none, transcribedText := "" } := by
  cases h : VoiceRecognitionService.startRecording env s.svc with
  | mk res svc1 => cases res <;> simp [handleStartRecording, h]

/-- C10: every `start()` publishes, as its first snapshot and before any
external interaction (the snapshot does not depend on the environment),
`transcribedText = ""` and `error = null`; consequently a `start()` that
fails — permission denied or capture error — still ends with the previous
transcribed text erased and the error message published. -/
theorem claim_C10_start_clears_first (s : Sys) (env env2 : StartEnv) :
    (∃ v rest, (handleStartRecording env s).2 = v :: rest
       ∧ v.transcribedText = "" ∧ v.error = none ∧ v.isRecording = true)
  ∧ ((handleStartRecording env s).2.head? = (handleStartRecording env2 s).2.head?)
  ∧ (env.permissionGranted = false →
       (handleStartRecording env s).1.vm.transcribedText = ""
       ∧ (handleStartRecording env s).1.vm.error = some permissionDeniedMsg)
  ∧ (∀ m, env.permissionGranted = true → env.captureResult = .error m →
       (handleStartRecording env s).1.vm.transcribedText = ""
       ∧ (handleStartRecording env s).1.vm.error = some m) := by
  refine ⟨?_, ?_, ?_, ?_⟩
  · have hh := handleStart_trace_head env s
    rcases htr : (handleStartRecording env s).2 with - | ⟨v, rest⟩
    · rw [htr] at hh; cases hh
    · rw [htr] at hh
      simp only [List.head?_cons, Option.some.injEq] at hh
      exact ⟨v, rest, rfl, by rw [hh], by rw [hh], by rw [hh]⟩
  · rw [handleStart_trace_head env s, handleStart_trace_head env2 s]
  · intro hperm
    constructor <;>
      simp [handleStartRecording, VoiceRecognitionService.startRecording, hperm]
  · intro m hperm hcap
    constructor <;>
      simp [handleStartRecording, VoiceRecognitionService.startRecording, hperm, hcap]

/-- C10 witness: a permission-denied `start()` from the initial state. -/
theorem claim_C10_witness :
    (startDeniedEnv.permissionGranted = false)
  ∧ ((handleStartRecording startDeniedEnv (initState .mock)).1.vm.transcribedText = ""
     ∧ (handleStartRecording startDeniedEnv (initState .mock)).1.vm.error
        = some permissionDeniedMsg) :=
  ⟨rfl, (claim_C10_start_clears_first (initState .mock) startDeniedEnv startOkEnv).2.2.1 rfl⟩
